import Mathlib

/-! Shallow embedding of the quantization workflow of this repository
(src/runners/quantizer.py).  The external collaborators of the Quantizer
class (the model and parameter utilities, the checkpoint loader and the
quantization kernels of the numeric framework) are not part of the source
excerpt; they are modelled from the specification, as stated in the doc
comment of each such definition.  Machine tensors are abstracted to their
shapes; the workflow state the claims are about (names of parameters and
buffers, the mask mapping, the stage flags, the event order, the persisted
artifacts, the log lines) is carried explicitly. -/

/-- A tensor, abstracted to its shape. -/
structure Tensor where
  shape : List Nat
deriving DecidableEq

/-- Number of elements of a tensor. -/
def Tensor.numel (t : Tensor) : Nat := t.shape.foldr (fun a b => a * b) 1

/-- A state mapping: named tensors in registration order. -/
abbrev SDict := List (String × Tensor)

/-- Substring test; mirrors the Python membership test (sub in s). -/
def strContains (s sub : String) : Bool := decide (sub.data <:+: s.data)

/-- The live model graph, abstracted to its named parameters and buffers
together with the stage flags the workflow toggles in place. -/
structure Model where
  params : SDict
  buffers : SDict
  reparam : Bool
  fused : Bool
  qconfig : Option String
  prepared : Bool
  evalMode : Bool
  converted : Bool
deriving DecidableEq

/-- The keys a strict state-mapping load matches against: registered
parameter names followed by registered buffer names. -/
def modelKeys (m : Model) : List String := m.params.map Prod.fst ++ m.buffers.map Prod.fst

/-- The state mapping of the live model: parameters then buffers. -/
def stateDictOf (m : Model) : SDict := m.params ++ m.buffers

/-- The framework exceptions the workflow can propagate. -/
inductive PyErr where
  | fileNotFound (path : String)
  | keyMismatch
  | nameError (n : String)
deriving DecidableEq

/-- A persisted checkpoint: a state mapping and a recorded test accuracy. -/
structure Checkpoint where
  state_dict : SDict
  test_acc : Rat
deriving DecidableEq

/-- Modelled from the spec: torch.load reads a persisted checkpoint and
raises when the file is missing. -/
def torch_load (fs : List (String × Checkpoint)) (path : String) : Except PyErr Checkpoint :=
  match List.lookup path fs with
  | some c => Except.ok c
  | none => Except.error (PyErr.fileNotFound path)

/-- Modelled from the spec: model_utils.get_params enumerates the prunable
(module, attribute) pairs of the model; abstracted to the registered
parameter paths. -/
def get_params (m : Model) : List String := m.params.map Prod.fst

/-- Dotted buffer name of the pruning mask of a parameter path. -/
def maskName (p : String) : String := p ++ "_mask"

/-- Modelled from the spec: model_utils.dummy_pruning applies the pruning
reparameterization with all-ones masks, registering one mask buffer per
prunable parameter; a no-op when the reparameterization is already applied. -/
def dummy_pruning (pa : List String) (m : Model) : Model :=
  if m.reparam then m
  else
    { m with reparam := true,
             buffers := m.buffers ++
               pa.filterMap (fun p => (List.lookup p m.params).map (fun t => (maskName p, t))) }

/-- Modelled from the spec: model_utils.get_masks extracts the mask mapping,
a mapping from dotted buffer paths marked by the mask naming convention to
their tensors. -/
def get_masks (m : Model) : SDict := m.buffers.filter (fun nb => strContains nb.1 "mask")

/-- Modelled from the spec: model_utils.remove_pruning_reparameterization
restores plain weight tensors and drops the registered mask buffers; a
no-op when the reparameterization is not applied. -/
def remove_pruning_reparameterization (pa : List String) (m : Model) : Model :=
  if m.reparam then
    { m with reparam := false,
             buffers := m.buffers.filter (fun nb => decide (nb.1 ∉ pa.map maskName)) }
  else m

/-- Modelled from the spec: model_utils.initialize_params performs a strict
weight load, failing unless the checkpoint keys coincide with the registered
parameter and buffer names of the model. -/
def initWeights (m : Model) (sd : SDict) : Except PyErr Model :=
  if ((sd.map Prod.fst).all (fun k => decide (k ∈ modelKeys m)) &&
      (modelKeys m).all (fun k => decide (k ∈ sd.map Prod.fst)))
  then Except.ok
    { m with
      params := m.params.map (fun nb => (nb.1, (List.lookup nb.1 sd).getD nb.2)),
      buffers := m.buffers.map (fun nb => (nb.1, (List.lookup nb.1 sd).getD nb.2)) }
  else Except.error PyErr.keyMismatch

/-- Observable events of a workflow execution, in order. -/
inductive Event where
  | warmup
  | fuse
  | setQConfig
  | prepare (staticMode : Bool)
  | dummyPrune
  | getMasksEv
  | removeReparam
  | installMasks
  | initParams
  | train
  | disableObserver
  | freezeBN
  | resumeBest
  | convertEv (reparamAtConvert : Bool)
  | script
  | save (path : String)
  | logArtifact (acc : String) (bytes : Nat)
  | logInfo (msg : String)
deriving DecidableEq

/-- A persisted artifact: a weight snapshot or a scripted model archive. -/
inductive Artifact where
  | sdict (sd : SDict)
  | scripted (m : Model)
deriving DecidableEq

/-- Byte length of a persisted state mapping: four bytes per element. -/
def sdBytes (sd : SDict) : Nat := 4 * (sd.map (fun nb => nb.2.numel)).sum

/-- Byte length of a persisted artifact file. -/
def artifactBytes : Artifact → Nat
  | Artifact.sdict sd => sdBytes sd
  | Artifact.scripted m => sdBytes (stateDictOf m)

/-- The Quantizer state: the long-lived model reference, the mask mapping,
the parameter registry and the construction flags. -/
structure Quantizer where
  model : Model
  mask : SDict
  params_all : List String
  static : Bool
  check_acc : Bool
  backend : String
  outDir : String
  orig_acc : Rat
deriving DecidableEq

/-- One step of Quantizer._load_masks: overwrite each named buffer of the
model that has a saved mask with that saved mask. -/
def installSavedMasks (mk : SDict) (m : Model) : Model :=
  { m with buffers := m.buffers.map (fun nb => (nb.1, (List.lookup nb.1 mk).getD nb.2)) }

/-- Quantizer._load_masks: early return when the mask mapping is empty;
otherwise re-apply the dummy pruning to the long-lived model and copy the
saved masks into its matching buffers. -/
def loadMasksQ (q : Quantizer) : Quantizer × List Event :=
  if q.mask.isEmpty then (q, [])
  else
    ({ q with model := installSavedMasks q.mask (dummy_pruning q.params_all q.model) },
     [Event.dummyPrune, Event.installMasks])

/-- Modelled from the spec: torch.quantization.convert with inplace false
maps float modules to quantized equivalents on a converted copy, leaving
its argument untouched. -/
def convertModel (m : Model) : Model := { m with converted := true }

/-- Quantizer._quantize: remove the reparameterization from the long-lived
model when masks are present, convert a copy, then re-install the masks
through Quantizer._load_masks. -/
def quantizeQ (q : Quantizer) : Quantizer × Model × List Event :=
  let st1 :=
    if q.mask.isEmpty then (q, ([] : List Event))
    else ({ q with model := remove_pruning_reparameterization q.params_all q.model },
          [Event.removeReparam])
  let q1 := st1.1
  let mEval := { q1.model with evalMode := true }
  let q2 := { q1 with model := mEval }
  let qm := { convertModel mEval with evalMode := true }
  let st2 := if q2.mask.isEmpty then (q2, ([] : List Event)) else loadMasksQ q2
  (st2.1, qm, st1.2 ++ [Event.convertEv mEval.reparam] ++ st2.2)

/-- Quantizer._prepare: fuse the model, attach the qat qconfig of the
backend, insert observers, then reload the saved masks. -/
def prepareQ (q : Quantizer) : Quantizer × List Event :=
  let m3 := { q.model with fused := true, qconfig := some ("qat:" ++ q.backend), prepared := true }
  let st := loadMasksQ { q with model := m3 }
  (st.1, [Event.fuse, Event.setQConfig, Event.prepare q.static] ++ st.2)

/-- Mask-marker scan of a checkpoint state mapping: some key contains the
substring mask. -/
def hasMaskKeyB (sd : SDict) : Bool := sd.any (fun kv => strContains kv.1 "mask")

/-- Quantizer._init_model: load the checkpoint, detect pruning by the mask
marker, dummy-prune before the strict weight load when pruned, and after
loading extract the masks and remove the reparameterization. -/
def initModel (fs : List (String × Checkpoint)) (q : Quantizer) (path : String) :
    Except PyErr (Quantizer × List Event) :=
  match torch_load fs path with
  | Except.error e => Except.error e
  | Except.ok ckpt =>
    let sd := ckpt.state_dict
    let pruned := hasMaskKeyB sd
    let m1 := if pruned then dummy_pruning q.params_all q.model else q.model
    let tr1 := if pruned then [Event.dummyPrune] else ([] : List Event)
    match initWeights m1 sd with
    | Except.error e => Except.error e
    | Except.ok m =>
      if pruned then
        Except.ok ({ q with orig_acc := ckpt.test_acc, mask := get_masks m,
                            model := remove_pruning_reparameterization q.params_all m },
                   tr1 ++ [Event.initParams, Event.getMasksEv, Event.removeReparam])
      else
        Except.ok ({ q with orig_acc := ckpt.test_acc, model := m },
                   tr1 ++ [Event.initParams])

/-- Quantizer construction: the mask mapping starts empty, the parameter
registry is built from the fresh model, then the model is initialized from
the checkpoint. -/
def quantizerInit (fs : List (String × Checkpoint)) (cfgModel : Model) (outDir : String)
    (staticMode check : Bool) (backend : String) (path : String) :
    Except PyErr (Quantizer × List Event) :=
  initModel fs
    { model := cfgModel, mask := [], params_all := get_params cfgModel,
      static := staticMode, check_acc := check, backend := backend,
      outDir := outDir, orig_acc := 0 } path

/-- Python float display of the recorded accuracy, for the integral
accuracies used by the workflow. -/
def pyFloatRepr (x : Rat) : String :=
  if x.den = 1 then toString x.num ++ ".0" else toString x

/-- Zero-padded six-digit block. -/
def pad6 (n : Nat) : String :=
  String.mk (List.replicate (6 - (Nat.repr n).length) '0') ++ Nat.repr n

/-- Exact rendering of a byte count divided by one million, to six decimal
places: the embedding of the size formatting of the run log lines. -/
def fmt6 (bytes : Nat) : String := Nat.repr (bytes / 1000000) ++ "." ++ pad6 (bytes % 1000000)

/-- The log line the run stage emits for one artifact. -/
def renderArtifactLine (acc : String) (bytes : Nat) : String :=
  "Acc: " ++ acc ++ " %\tSize: " ++ fmt6 bytes ++ " MB"

/-- Stage marker logged at the start of static calibration. -/
def calibMsg : String := "Post Training Static Quantization: Run calibration"

/-- Stage marker logged at the start of quantization-aware training. -/
def qatMsg : String := "Quantization Aware Training: Run training"

/-- Outcome of Quantizer.run: final state or propagated exception, with the
artifacts persisted and the events emitted up to that point. -/
inductive RunResult where
  | ok (q : Quantizer) (files : List (String × Artifact)) (tr : List Event)
  | err (e : PyErr) (files : List (String × Artifact)) (tr : List Event)

/-- Event trace of a run outcome. -/
def traceOf : RunResult → List Event
  | RunResult.ok _ _ t => t
  | RunResult.err _ _ t => t

/-- Artifacts persisted by a run outcome. -/
def filesOf : RunResult → List (String × Artifact)
  | RunResult.ok _ f _ => f
  | RunResult.err _ f _ => f

/-- The artifact log lines of a trace, as accuracy text and byte count. -/
def artifactLogs (tr : List Event) : List (String × Nat) :=
  tr.filterMap (fun e => match e with | Event.logArtifact a n => some (a, n) | _ => none)

/-- Quantizer.run: baseline snapshot, prepare, calibrate or train, quantize,
then measure, persist and log the quantized and scripted artifacts.  The
accuracy-checking branch evaluates the unbound name profiler and therefore
raises a NameError before any evaluation epoch runs. -/
def runQ (q : Quantizer) : RunResult :=
  let origPath := q.outDir ++ "/orig_model.pth"
  let origArt := Artifact.sdict (stateDictOf q.model)
  let files0 := [(origPath, origArt)]
  let tr0 := [Event.warmup, Event.save origPath,
              Event.logArtifact (pyFloatRepr q.orig_acc) (artifactBytes origArt)]
  let stP := prepareQ q
  let qP := stP.1
  let trP := tr0 ++ stP.2
  let stC : Quantizer × List Event :=
    if qP.static then (qP, [Event.logInfo calibMsg, Event.warmup])
    else (qP, [Event.logInfo qatMsg, Event.train, Event.disableObserver,
               Event.freezeBN, Event.resumeBest])
  let qC := stC.1
  let trC := trP ++ stC.2
  let stQ := quantizeQ qC
  let qZ := stQ.1
  let qm := stQ.2.1
  let trQ := trC ++ stQ.2.2
  if qZ.check_acc then RunResult.err (PyErr.nameError "profiler") files0 trQ
  else
    let qPath := qZ.outDir ++ "/quantized_model.pth"
    let qArt := Artifact.sdict (stateDictOf qm)
    let files1 := files0 ++ [(qPath, qArt)]
    let tr1 := trQ ++ [Event.warmup, Event.save qPath,
                       Event.logArtifact "None" (artifactBytes qArt)]
    let tr2 := tr1 ++ [Event.script]
    if qZ.check_acc then RunResult.err (PyErr.nameError "profiler") files1 tr2
    else
      let sPath := qZ.outDir ++ "/scripted_model.pth"
      let sArt := Artifact.scripted qm
      let files2 := files1 ++ [(sPath, sArt)]
      let tr3 := tr2 ++ [Event.warmup, Event.save sPath,
                         Event.logArtifact "None" (artifactBytes sArt)]
      RunResult.ok qZ files2 tr3

/-- Concrete two-by-two tensor used by the concrete scenarios. -/
def t22 : Tensor := { shape := [2, 2] }

/-- Concrete fresh model with a single prunable convolution weight. -/
def model0 : Model :=
  { params := [("conv.weight", t22)], buffers := [], reparam := false, fused := false,
    qconfig := none, prepared := false, evalMode := false, converted := false }

/-- Concrete pruned checkpoint: weight plus mask key, accuracy seventy-one. -/
def ckptPruned : Checkpoint :=
  { state_dict := [("conv.weight", t22), ("conv.weight_mask", t22)], test_acc := 71 }

/-- Concrete unpruned checkpoint with accuracy seventy-one. -/
def ckptPlain : Checkpoint := { state_dict := [("conv.weight", t22)], test_acc := 71 }

/-- Concrete file system holding the pruned checkpoint. -/
def fsPruned : List (String × Checkpoint) := [("ckpt.pth", ckptPruned)]

/-- Concrete file system holding the unpruned checkpoint. -/
def fsPlain : List (String × Checkpoint) := [("ckpt.pth", ckptPlain)]

/-- Concrete quantizer state after an unpruned initialization. -/
def qBase : Quantizer :=
  { model := model0, mask := [], params_all := ["conv.weight"], static := true,
    check_acc := false, backend := "fbgemm", outDir := "save", orig_acc := 71 }

/-- Concrete model carrying an applied reparameterization and mask buffer. -/
def modelMasked : Model :=
  { model0 with reparam := true, buffers := [("conv.weight_mask", t22)] }

/-- Concrete quantizer state after a pruned preparation stage. -/
def qMasked : Quantizer :=
  { qBase with model := modelMasked, mask := [("conv.weight_mask", t22)] }

/-- Concrete quantizer state with accuracy checking enabled. -/
def qCheck : Quantizer := { qBase with check_acc := true }

/-- Test for a propagated NameError on the name profiler. -/
def isNameErr : RunResult → Bool
  | RunResult.err (PyErr.nameError s) _ _ => s == "profiler"
  | _ => false

/-- Test for a run that completed without propagating an exception. -/
def isOk : RunResult → Bool
  | RunResult.ok _ _ _ => true
  | RunResult.err _ _ _ => false

/-- Concrete quantizer state with a non-empty mask mapping and a plain
(non-reparameterized) model, as left by a pruned initialization. -/
def qMaskedPlain : Quantizer := { qBase with mask := [("conv.weight_mask", t22)] }

theorem strContains_maskName (p : String) : strContains (maskName p) "mask" = true := by
  have h1 : "mask".data <:+: "_mask".data := by decide
  have h2 : "_mask".data <:+ (p ++ "_mask").data := by
    rw [String.data_append]
    exact List.suffix_append _ _
  simpa [strContains, maskName] using h1.trans h2.isInfix

@[simp] theorem dummy_pruning_reparam (pa : List String) (m : Model) :
    (dummy_pruning pa m).reparam = true := by
  unfold dummy_pruning
  split
  next h => exact h
  next h => rfl

@[simp] theorem dummy_pruning_params (pa : List String) (m : Model) :
    (dummy_pruning pa m).params = m.params := by
  unfold dummy_pruning
  split <;> rfl

@[simp] theorem dummy_pruning_evalMode (pa : List String) (m : Model) :
    (dummy_pruning pa m).evalMode = m.evalMode := by
  unfold dummy_pruning
  split <;> rfl

@[simp] theorem dummy_pruning_converted (pa : List String) (m : Model) :
    (dummy_pruning pa m).converted = m.converted := by
  unfold dummy_pruning
  split <;> rfl

theorem dummy_pruning_buffers_of_plain (pa : List String) (m : Model)
    (h : m.reparam = false) :
    (dummy_pruning pa m).buffers =
      m.buffers ++ pa.filterMap (fun p => (List.lookup p m.params).map (fun t => (maskName p, t))) := by
  unfold dummy_pruning
  simp [h]

@[simp] theorem remove_reparam_reparam (pa : List String) (m : Model) :
    (remove_pruning_reparameterization pa m).reparam = false := by
  unfold remove_pruning_reparameterization
  split
  next h => rfl
  next h => simpa using h

@[simp] theorem remove_reparam_params (pa : List String) (m : Model) :
    (remove_pruning_reparameterization pa m).params = m.params := by
  unfold remove_pruning_reparameterization
  split <;> rfl

@[simp] theorem remove_reparam_evalMode (pa : List String) (m : Model) :
    (remove_pruning_reparameterization pa m).evalMode = m.evalMode := by
  unfold remove_pruning_reparameterization
  split <;> rfl

@[simp] theorem remove_reparam_converted (pa : List String) (m : Model) :
    (remove_pruning_reparameterization pa m).converted = m.converted := by
  unfold remove_pruning_reparameterization
  split <;> rfl

@[simp] theorem installSavedMasks_params (mk : SDict) (m : Model) :
    (installSavedMasks mk m).params = m.params := rfl

@[simp] theorem installSavedMasks_reparam (mk : SDict) (m : Model) :
    (installSavedMasks mk m).reparam = m.reparam := rfl

@[simp] theorem installSavedMasks_evalMode (mk : SDict) (m : Model) :
    (installSavedMasks mk m).evalMode = m.evalMode := rfl

@[simp] theorem installSavedMasks_converted (mk : SDict) (m : Model) :
    (installSavedMasks mk m).converted = m.converted := rfl

@[simp] theorem installSavedMasks_keys (mk : SDict) (m : Model) :
    (installSavedMasks mk m).buffers.map Prod.fst = m.buffers.map Prod.fst := by
  simp [installSavedMasks, List.map_map]

@[simp] theorem loadMasksQ_mask (q : Quantizer) : (loadMasksQ q).1.mask = q.mask := by
  unfold loadMasksQ
  split <;> rfl

@[simp] theorem loadMasksQ_static (q : Quantizer) : (loadMasksQ q).1.static = q.static := by
  unfold loadMasksQ
  split <;> rfl

@[simp] theorem loadMasksQ_check (q : Quantizer) : (loadMasksQ q).1.check_acc = q.check_acc := by
  unfold loadMasksQ
  split <;> rfl

@[simp] theorem loadMasksQ_outDir (q : Quantizer) : (loadMasksQ q).1.outDir = q.outDir := by
  unfold loadMasksQ
  split <;> rfl

@[simp] theorem loadMasksQ_params_all (q : Quantizer) :
    (loadMasksQ q).1.params_all = q.params_all := by
  unfold loadMasksQ
  split <;> rfl

@[simp] theorem prepareQ_mask (q : Quantizer) : (prepareQ q).1.mask = q.mask := by
  simp [prepareQ]

@[simp] theorem prepareQ_static (q : Quantizer) : (prepareQ q).1.static = q.static := by
  simp [prepareQ]

@[simp] theorem prepareQ_check (q : Quantizer) : (prepareQ q).1.check_acc = q.check_acc := by
  simp [prepareQ]

@[simp] theorem prepareQ_outDir (q : Quantizer) : (prepareQ q).1.outDir = q.outDir := by
  simp [prepareQ]

@[simp] theorem prepareQ_params_all (q : Quantizer) :
    (prepareQ q).1.params_all = q.params_all := by
  simp [prepareQ]

@[simp] theorem quantizeQ_mask (q : Quantizer) : (quantizeQ q).1.mask = q.mask := by
  rcases hm : q.mask with _ | ⟨a, l⟩ <;> simp [quantizeQ, hm]

@[simp] theorem quantizeQ_static (q : Quantizer) : (quantizeQ q).1.static = q.static := by
  rcases hm : q.mask with _ | ⟨a, l⟩ <;> simp [quantizeQ, hm]

@[simp] theorem quantizeQ_check (q : Quantizer) : (quantizeQ q).1.check_acc = q.check_acc := by
  rcases hm : q.mask with _ | ⟨a, l⟩ <;> simp [quantizeQ, hm]

@[simp] theorem quantizeQ_outDir (q : Quantizer) : (quantizeQ q).1.outDir = q.outDir := by
  rcases hm : q.mask with _ | ⟨a, l⟩ <;> simp [quantizeQ, hm]

theorem initModel_load_err (fs : List (String × Checkpoint)) (q : Quantizer)
    (path : String) (e : PyErr) (h : torch_load fs path = Except.error e) :
    initModel fs q path = Except.error e := by
  unfold initModel
  rw [h]

theorem initModel_weights_err_unpruned (fs : List (String × Checkpoint)) (q : Quantizer)
    (path : String) (c : Checkpoint) (e : PyErr)
    (hl : torch_load fs path = Except.ok c)
    (hp : hasMaskKeyB c.state_dict = false)
    (hw : initWeights q.model c.state_dict = Except.error e) :
    initModel fs q path = Except.error e := by
  unfold initModel
  rw [hl]
  simp [hp, hw]

theorem initModel_weights_err_pruned (fs : List (String × Checkpoint)) (q : Quantizer)
    (path : String) (c : Checkpoint) (e : PyErr)
    (hl : torch_load fs path = Except.ok c)
    (hp : hasMaskKeyB c.state_dict = true)
    (hw : initWeights (dummy_pruning q.params_all q.model) c.state_dict = Except.error e) :
    initModel fs q path = Except.error e := by
  unfold initModel
  rw [hl]
  simp [hp, hw]

theorem initModel_ok_unpruned (fs : List (String × Checkpoint)) (q : Quantizer)
    (path : String) (c : Checkpoint) (m : Model)
    (hl : torch_load fs path = Except.ok c)
    (hp : hasMaskKeyB c.state_dict = false)
    (hw : initWeights q.model c.state_dict = Except.ok m) :
    initModel fs q path =
      Except.ok ({ q with orig_acc := c.test_acc, model := m }, [Event.initParams]) := by
  unfold initModel
  rw [hl]
  simp [hp, hw]

theorem initModel_ok_pruned (fs : List (String × Checkpoint)) (q : Quantizer)
    (path : String) (c : Checkpoint) (m : Model)
    (hl : torch_load fs path = Except.ok c)
    (hp : hasMaskKeyB c.state_dict = true)
    (hw : initWeights (dummy_pruning q.params_all q.model) c.state_dict = Except.ok m) :
    initModel fs q path =
      Except.ok ({ q with orig_acc := c.test_acc, mask := get_masks m,
                          model := remove_pruning_reparameterization q.params_all m },
                 [Event.dummyPrune, Event.initParams, Event.getMasksEv, Event.removeReparam]) := by
  unfold initModel
  rw [hl]
  simp [hp, hw]

theorem initWeights_ok_keys (m m2 : Model) (sd : SDict)
    (h : initWeights m sd = Except.ok m2) :
    m2.params.map Prod.fst = m.params.map Prod.fst ∧
    m2.buffers.map Prod.fst = m.buffers.map Prod.fst ∧
    m2.reparam = m.reparam := by
  unfold initWeights at h
  split at h
  next =>
    cases h
    refine ⟨?_, ?_, rfl⟩ <;> simp [List.map_map]
  next => cases h

theorem initWeights_ok_subset (m m2 : Model) (sd : SDict)
    (h : initWeights m sd = Except.ok m2) :
    ∀ k ∈ sd.map Prod.fst, k ∈ modelKeys m := by
  unfold initWeights at h
  split at h
  next hc =>
    rw [Bool.and_eq_true] at hc
    intro k hk
    have := (List.all_eq_true.mp hc.1) k hk
    simpa using this
  next => cases h

/-- C5: the mask-reconciliation operations are idempotent: applying the
dummy reparameterization when already applied, or removing it when already
removed, is a no-op, so a second application in a row changes nothing (no
duplicate buffer registration, no shape change); and the Quantizer call
sites guard these operations with emptiness tests on the mask mapping (an
empty-mask load is the identity and an empty-mask quantize performs neither
removal nor re-application). -/
theorem mask_reconciliation_idempotent (pa : List String) (m : Model) (q : Quantizer) :
    dummy_pruning pa (dummy_pruning pa m) = dummy_pruning pa m ∧
    remove_pruning_reparameterization pa (remove_pruning_reparameterization pa m) =
      remove_pruning_reparameterization pa m ∧
    (q.mask = [] → loadMasksQ q = (q, []) ∧
      ∀ e ∈ (quantizeQ q).2.2, e ≠ Event.removeReparam ∧ e ≠ Event.dummyPrune) := by
  refine ⟨?_, ?_, fun hm => ⟨by simp [loadMasksQ, hm], by simp [quantizeQ, hm]⟩⟩
  · cases hr : m.reparam <;> simp [dummy_pruning, hr]
  · cases hr : m.reparam <;> simp [remove_pruning_reparameterization, hr]

theorem mask_reconciliation_idempotent_witness :
    qBase.mask = [] ∧
    (loadMasksQ qBase = (qBase, []) ∧
      ∀ e ∈ (quantizeQ qBase).2.2, e ≠ Event.removeReparam ∧ e ≠ Event.dummyPrune) :=
  ⟨rfl, (mask_reconciliation_idempotent qBase.params_all qBase.model qBase).2.2 rfl⟩

/-- C10: although conversion is non-in-place (the returned model is a
distinct converted object and the long-lived model stays unconverted),
every _quantize invocation mutates the model passed to it: it switches it
to evaluation mode, and with a non-empty mask mapping it removes the
reparameterization from it and re-applies the dummy pruning and mask
buffers to the Quantizer own model. -/
theorem quantize_mutates_long_lived_model (q : Quantizer) :
    (quantizeQ q).1.model.evalMode = true ∧
    (quantizeQ q).2.1.converted = true ∧
    (quantizeQ q).1.model.converted = q.model.converted ∧
    (q.mask ≠ [] → (quantizeQ q).1.model.reparam = true ∧
      Event.removeReparam ∈ (quantizeQ q).2.2 ∧ Event.dummyPrune ∈ (quantizeQ q).2.2) ∧
    (q.model.converted = false → (quantizeQ q).2.1 ≠ (quantizeQ q).1.model) := by
  have h1 : (quantizeQ q).1.model.evalMode = true := by
    rcases hm : q.mask with _ | ⟨a, l⟩ <;> simp [quantizeQ, hm, loadMasksQ]
  have h2 : (quantizeQ q).2.1.converted = true := by
    rcases hm : q.mask with _ | ⟨a, l⟩ <;> simp [quantizeQ, hm, convertModel]
  have h3 : (quantizeQ q).1.model.converted = q.model.converted := by
    rcases hm : q.mask with _ | ⟨a, l⟩ <;> simp [quantizeQ, hm, loadMasksQ]
  refine ⟨h1, h2, h3, ?_, ?_⟩
  · intro hne
    rcases hm : q.mask with _ | ⟨a, l⟩
    · exact absurd hm hne
    · refine ⟨?_, ?_, ?_⟩ <;> simp [quantizeQ, hm, loadMasksQ]
  · intro hconv heq
    have := h2
    rw [heq, h3, hconv] at this
    cases this

theorem quantize_mutates_long_lived_model_witness :
    qMasked.mask ≠ [] ∧ qMasked.model.converted = false ∧
    ((quantizeQ qMasked).1.model.reparam = true ∧
     Event.removeReparam ∈ (quantizeQ qMasked).2.2 ∧
     Event.dummyPrune ∈ (quantizeQ qMasked).2.2) ∧
    (quantizeQ qMasked).2.1 ≠ (quantizeQ qMasked).1.model := by
  have h := quantize_mutates_long_lived_model qMasked
  exact ⟨by decide, by decide, h.2.2.2.1 (by decide), h.2.2.2.2 (by decide)⟩

/-- C2 (settled as a code bug): with accuracy checking enabled the run
stage evaluates the unbound name profiler and propagates a NameError
before any evaluation epoch runs, persisting only the original snapshot;
the measurement path never completes and never logs a numeric accuracy. -/
theorem run_check_acc_raises_name_error (q : Quantizer) (h : q.check_acc = true) :
    isNameErr (runQ q) = true ∧
    (filesOf (runQ q)).map Prod.fst = [q.outDir ++ "/orig_model.pth"] := by
  rcases hs : q.static <;> rcases hm : q.mask with _ | ⟨a, l⟩ <;>
    constructor <;>
      simp [runQ, h, hs, hm, apply_ite, isNameErr, filesOf, prepareQ, loadMasksQ]

theorem run_check_acc_raises_name_error_witness :
    qCheck.check_acc = true ∧ isNameErr (runQ qCheck) = true ∧
    (filesOf (runQ qCheck)).map Prod.fst = [qCheck.outDir ++ "/orig_model.pth"] := by
  have h := run_check_acc_raises_name_error qCheck rfl
  exact ⟨rfl, h.1, h.2⟩

/-- C1 (amended): after removing the reparameterization and converting, the
saved masks are re-installed into the Quantizer long-lived model, not into
the converted copy that _quantize returns: every mask key of the canonical
mask-buffer form appears among the named buffers of the Quantizer model
object after _quantize. -/
theorem quantize_reinstalls_masks_into_own_model (q : Quantizer)
    (hne : q.mask ≠ [])
    (hform : ∀ k ∈ q.mask.map Prod.fst,
      ∃ p, p ∈ q.params_all ∧ (List.lookup p q.model.params).isSome ∧ k = maskName p) :
    ∀ k ∈ q.mask.map Prod.fst, k ∈ (quantizeQ q).1.model.buffers.map Prod.fst := by
  intro k hk
  obtain ⟨p, hp, hsome, hkp⟩ := hform k hk
  obtain ⟨t0, ht0⟩ := Option.isSome_iff_exists.mp hsome
  rcases hm : q.mask with _ | ⟨a, l⟩
  · exact absurd hm hne
  have hq1 : (quantizeQ q).1.model =
      installSavedMasks q.mask (dummy_pruning q.params_all
        { remove_pruning_reparameterization q.params_all q.model with evalMode := true }) := by
    simp [quantizeQ, hm, loadMasksQ]
  rw [hq1, installSavedMasks_keys,
      dummy_pruning_buffers_of_plain _ _ (by simp)]
  have hmem : (maskName p, t0) ∈
      q.params_all.filterMap (fun p0 =>
        (List.lookup p0 ({ remove_pruning_reparameterization q.params_all q.model with
          evalMode := true } : Model).params).map (fun t => (maskName p0, t))) := by
    refine List.mem_filterMap.mpr ⟨p, hp, ?_⟩
    have : ({ remove_pruning_reparameterization q.params_all q.model with
        evalMode := true } : Model).params = q.model.params := by simp
    rw [this, ht0]
    rfl
  rw [hkp]
  exact List.mem_map.mpr ⟨(maskName p, t0), List.mem_append_right _ hmem, rfl⟩

theorem quantize_reinstalls_masks_witness :
    qMasked.mask ≠ [] ∧
    (∀ k ∈ qMasked.mask.map Prod.fst,
      ∃ p, p ∈ qMasked.params_all ∧ (List.lookup p qMasked.model.params).isSome ∧
        p ++ "_mask" = maskName p ∧ k = maskName p) ∧
    ∀ k ∈ qMasked.mask.map Prod.fst, k ∈ (quantizeQ qMasked).1.model.buffers.map Prod.fst := by
  refine ⟨by decide, by decide, ?_⟩
  exact quantize_reinstalls_masks_into_own_model qMasked (by decide) (by decide)

/-- C1 counterexample: on a concrete pruned state, the key of the saved
mask mapping is not among the named buffers of the model object that
_quantize returns (the converted copy), refuting the claim as stated. -/
theorem quantize_returned_model_lacks_mask_cex :
    "conv.weight_mask" ∈ qMasked.mask.map Prod.fst ∧
    "conv.weight_mask" ∉ (quantizeQ qMasked).2.1.buffers.map Prod.fst := by
  constructor
  · decide
  · decide

theorem runQ_ok_final (q qf : Quantizer) (fl : List (String × Artifact)) (t : List Event)
    (h : runQ q = RunResult.ok qf fl t) : qf.mask = q.mask := by
  unfold runQ at h
  rcases hc : q.check_acc <;> simp [hc, apply_ite] at h
  obtain ⟨h1, h2, h3⟩ := h
  rw [← h1]
  simp

/-- C9: initialization fails by propagating the underlying framework
exception unmodified: a missing checkpoint file propagates the file error
and a weight-key mismatch propagates the strict-load error; no local catch,
recovery or retry exists anywhere in initialization. -/
theorem init_propagates_framework_errors (fs : List (String × Checkpoint))
    (q : Quantizer) (path : String) :
    (List.lookup path fs = none →
      initModel fs q path = Except.error (PyErr.fileNotFound path)) ∧
    (∀ e, torch_load fs path = Except.error e → initModel fs q path = Except.error e) ∧
    (∀ c e, torch_load fs path = Except.ok c →
      initWeights (if hasMaskKeyB c.state_dict then dummy_pruning q.params_all q.model
                   else q.model) c.state_dict = Except.error e →
      initModel fs q path = Except.error e) := by
  refine ⟨?_, ?_, ?_⟩
  · intro h
    exact initModel_load_err fs q path _ (by simp [torch_load, h])
  · intro e h
    exact initModel_load_err fs q path e h
  · intro c e hl hw
    cases hp : hasMaskKeyB c.state_dict
    · rw [hp] at hw
      simp at hw
      exact initModel_weights_err_unpruned fs q path c e hl hp hw
    · rw [hp] at hw
      simp at hw
      exact initModel_weights_err_pruned fs q path c e hl hp hw

theorem init_propagates_framework_errors_witness :
    List.lookup "missing.pth" ([] : List (String × Checkpoint)) = none ∧
    initModel [] qBase "missing.pth" = Except.error (PyErr.fileNotFound "missing.pth") :=
  ⟨rfl, (init_propagates_framework_errors [] qBase "missing.pth").1 rfl⟩

/-- C4: initialization treats a checkpoint as pruned iff some state_dict
key contains the substring mask; when pruned, the dummy reparameterization
is applied before the weight load and, after loading, the masks are
extracted and the reparameterization removed, so post-initialization the
mask mapping is non-empty and the model parameters are plain tensors. -/
theorem init_detects_pruned_iff (fs : List (String × Checkpoint)) (q : Quantizer)
    (path : String) (c : Checkpoint) (q' : Quantizer) (trI : List Event)
    (hClean : ∀ k ∈ modelKeys q.model, strContains k "mask" = false)
    (hl : torch_load fs path = Except.ok c)
    (hinit : initModel fs q path = Except.ok (q', trI)) :
    ((Event.dummyPrune ∈ trI) ↔ hasMaskKeyB c.state_dict = true) ∧
    (hasMaskKeyB c.state_dict = true →
      trI = [Event.dummyPrune, Event.initParams, Event.getMasksEv, Event.removeReparam] ∧
      q'.mask ≠ [] ∧ q'.model.reparam = false) := by
  cases hp : hasMaskKeyB c.state_dict
  · rcases hw : initWeights q.model c.state_dict with e | m
    · have hcontra := initModel_weights_err_unpruned fs q path c e hl hp hw
      rw [hcontra] at hinit
      cases hinit
    · have heq := initModel_ok_unpruned fs q path c m hl hp hw
      rw [heq] at hinit
      simp only [Except.ok.injEq, Prod.mk.injEq] at hinit
      obtain ⟨hq, ht⟩ := hinit
      subst ht
      refine ⟨by simp, by simp⟩
  · rcases hw : initWeights (dummy_pruning q.params_all q.model) c.state_dict with e | m
    · have hcontra := initModel_weights_err_pruned fs q path c e hl hp hw
      rw [hcontra] at hinit
      cases hinit
    · have heq := initModel_ok_pruned fs q path c m hl hp hw
      rw [heq] at hinit
      simp only [Except.ok.injEq, Prod.mk.injEq] at hinit
      obtain ⟨hq, ht⟩ := hinit
      subst ht
      refine ⟨by simp, fun _ => ⟨rfl, ?_, by rw [← hq]; simp⟩⟩
      rw [← hq]
      show get_masks m ≠ []
      obtain ⟨kv, hkv, hcont⟩ := List.any_eq_true.mp hp
      have hksd : kv.1 ∈ c.state_dict.map Prod.fst := List.mem_map.mpr ⟨kv, hkv, rfl⟩
      have hkm1 := initWeights_ok_subset _ _ _ hw kv.1 hksd
      unfold modelKeys at hkm1
      rw [List.mem_append] at hkm1
      rcases hkm1 with hkp | hkb
      · rw [dummy_pruning_params] at hkp
        have hfalse := hClean kv.1 (List.mem_append_left _ hkp)
        rw [hfalse] at hcont
        cases hcont
      · have hkeys := (initWeights_ok_keys _ _ _ hw).2.1
        rw [← hkeys] at hkb
        obtain ⟨x, hmem, hfst⟩ := List.mem_map.mp hkb
        have hin : x ∈ get_masks m := by
          unfold get_masks
          refine List.mem_filter.mpr ⟨hmem, ?_⟩
          rw [hfst]
          exact hcont
        exact List.ne_nil_of_mem hin

theorem init_detects_pruned_iff_witness :
    (∀ k ∈ modelKeys qBase.model, strContains k "mask" = false) ∧
    ∃ q' trI, initModel fsPruned qBase "ckpt.pth" = Except.ok (q', trI) ∧
      ((Event.dummyPrune ∈ trI) ↔ hasMaskKeyB ckptPruned.state_dict = true) ∧
      (trI = [Event.dummyPrune, Event.initParams, Event.getMasksEv, Event.removeReparam] ∧
       q'.mask ≠ [] ∧ q'.model.reparam = false) := by
  refine ⟨by decide, ?_⟩
  obtain ⟨q', trI, h⟩ :
      ∃ q' trI, initModel fsPruned qBase "ckpt.pth" = Except.ok (q', trI) := ⟨_, _, rfl⟩
  have hc := init_detects_pruned_iff fsPruned qBase "ckpt.pth" ckptPruned q' trI
    (by decide) rfl h
  exact ⟨q', trI, h, hc.1, hc.2 (by decide)⟩

/-- C3: for a checkpoint with no mask-marked key, initialization performs
neither mask extraction nor reparameterization removal nor dummy pruning,
the mask mapping stays empty, and the whole subsequent run performs no
mask-guarded operation (no dummy pruning, mask extraction, removal or
mask installation event) and ends with an empty mask mapping. -/
theorem no_mask_checkpoint_skips_mask_paths (fs : List (String × Checkpoint))
    (q : Quantizer) (path : String) (c : Checkpoint) (q' : Quantizer) (trI : List Event)
    (hmask0 : q.mask = [])
    (hl : torch_load fs path = Except.ok c)
    (hnm : hasMaskKeyB c.state_dict = false)
    (hinit : initModel fs q path = Except.ok (q', trI)) :
    trI = [Event.initParams] ∧ q'.mask = [] ∧
    (∀ e ∈ traceOf (runQ q'), e ≠ Event.dummyPrune ∧ e ≠ Event.getMasksEv ∧
      e ≠ Event.removeReparam ∧ e ≠ Event.installMasks) ∧
    (∀ qf fl t, runQ q' = RunResult.ok qf fl t → qf.mask = []) := by
  rcases hw : initWeights q.model c.state_dict with e | m
  · have hcontra := initModel_weights_err_unpruned fs q path c e hl hnm hw
    rw [hcontra] at hinit
    cases hinit
  · have heq := initModel_ok_unpruned fs q path c m hl hnm hw
    rw [heq] at hinit
    simp only [Except.ok.injEq, Prod.mk.injEq] at hinit
    obtain ⟨hq, ht⟩ := hinit
    subst ht
    have hqmask : q'.mask = [] := by
      rw [← hq]
      simpa using hmask0
    refine ⟨rfl, hqmask, ?_, ?_⟩
    · rcases hs : q'.static <;> rcases hc : q'.check_acc <;>
        simp [runQ, prepareQ, loadMasksQ, quantizeQ, traceOf, apply_ite, hs, hc, hqmask]
    · intro qf fl t h
      rw [runQ_ok_final q' qf fl t h, hqmask]

theorem no_mask_checkpoint_skips_mask_paths_witness :
    qBase.mask = [] ∧ hasMaskKeyB ckptPlain.state_dict = false ∧
    ∃ q' trI, initModel fsPlain qBase "ckpt.pth" = Except.ok (q', trI) ∧
      (trI = [Event.initParams] ∧ q'.mask = [] ∧
       (∀ e ∈ traceOf (runQ q'), e ≠ Event.dummyPrune ∧ e ≠ Event.getMasksEv ∧
         e ≠ Event.removeReparam ∧ e ≠ Event.installMasks) ∧
       (∀ qf fl t, runQ q' = RunResult.ok qf fl t → qf.mask = [])) := by
  refine ⟨rfl, by decide, ?_⟩
  obtain ⟨q', trI, h⟩ :
      ∃ q' trI, initModel fsPlain qBase "ckpt.pth" = Except.ok (q', trI) := ⟨_, _, rfl⟩
  exact ⟨q', trI, h,
    no_mask_checkpoint_skips_mask_paths fsPlain qBase "ckpt.pth" ckptPlain q' trI
      rfl rfl (by decide) h⟩

/-- C6: in every run the stages keep a fixed order: fusion and observer
preparation complete before the calibration or training stage markers, and
conversion happens only after reparameterization removal, never before (at
every conversion the model is no longer reparameterized, and with a
non-empty mask mapping an explicit removal precedes the conversion). -/
theorem run_stage_ordering (q : Quantizer) (hrep : q.model.reparam = false) :
    (∃ A B, traceOf (runQ q) = A ++ B ∧
      Event.prepare q.static ∈ A ∧ Event.fuse ∈ A ∧
      (∀ e ∈ A, e ≠ Event.train ∧ e ≠ Event.logInfo calibMsg ∧ e ≠ Event.logInfo qatMsg) ∧
      (∀ e ∈ B, (∀ b, e ≠ Event.prepare b) ∧ e ≠ Event.fuse)) ∧
    (∀ b, Event.convertEv b ∈ traceOf (runQ q) → b = false) ∧
    (q.mask ≠ [] → ∃ C D, traceOf (runQ q) = C ++ D ∧
      Event.removeReparam ∈ C ∧ (∀ b, Event.convertEv b ∉ C) ∧
      (∃ b, Event.convertEv b ∈ D)) := by
  refine ⟨?_, ?_, ?_⟩
  · rcases hm : q.mask with _ | ⟨a, l⟩
    · refine ⟨(traceOf (runQ q)).take 6, (traceOf (runQ q)).drop 6,
        (List.take_append_drop _ _).symm, ?_, ?_, ?_, ?_⟩ <;>
          rcases hs : q.static <;> rcases hc : q.check_acc <;>
            simp [runQ, prepareQ, loadMasksQ, quantizeQ, traceOf, apply_ite, hs, hc, hm]
    · refine ⟨(traceOf (runQ q)).take 8, (traceOf (runQ q)).drop 8,
        (List.take_append_drop _ _).symm, ?_, ?_, ?_, ?_⟩ <;>
          rcases hs : q.static <;> rcases hc : q.check_acc <;>
            simp [runQ, prepareQ, loadMasksQ, quantizeQ, traceOf, apply_ite, hs, hc, hm]
  · intro b hb
    rcases hs : q.static <;> rcases hc : q.check_acc <;>
      rcases hm : q.mask with _ | ⟨a, l⟩ <;>
        simp [runQ, prepareQ, loadMasksQ, quantizeQ, traceOf, apply_ite,
          hs, hc, hm, hrep] at hb <;>
        simp [hb]
  · intro hne
    rcases hm : q.mask with _ | ⟨a, l⟩
    · exact absurd hm hne
    rcases hs : q.static
    · refine ⟨(traceOf (runQ q)).take 14, (traceOf (runQ q)).drop 14,
        (List.take_append_drop _ _).symm, ?_, ?_, ?_⟩ <;>
          rcases hc : q.check_acc <;>
            simp [runQ, prepareQ, loadMasksQ, quantizeQ, traceOf, apply_ite, hs, hc, hm, hrep]
    · refine ⟨(traceOf (runQ q)).take 11, (traceOf (runQ q)).drop 11,
        (List.take_append_drop _ _).symm, ?_, ?_, ?_⟩ <;>
          rcases hc : q.check_acc <;>
            simp [runQ, prepareQ, loadMasksQ, quantizeQ, traceOf, apply_ite, hs, hc, hm, hrep]

theorem run_stage_ordering_witness :
    (qMaskedPlain.model.reparam = false ∧ qMaskedPlain.mask ≠ []) ∧
    (∀ b, Event.convertEv b ∈ traceOf (runQ qMaskedPlain) → b = false) ∧
    (∃ C D, traceOf (runQ qMaskedPlain) = C ++ D ∧
      Event.removeReparam ∈ C ∧ (∀ b, Event.convertEv b ∉ C) ∧
      (∃ b, Event.convertEv b ∈ D)) := by
  have h := run_stage_ordering qMaskedPlain rfl
  exact ⟨⟨rfl, by decide⟩, h.2.1, h.2.2 (by decide)⟩

/-- C7: in the static, unpruned, accuracy-checking-off scenario with a
recorded accuracy of seventy-one, the run completes, persists exactly the
three artifacts orig_model.pth, quantized_model.pth and scripted_model.pth
under the output directory, logs the baseline accuracy as 71.0 and logs the
accuracy text None for both the quantized and the scripted artifact. -/
theorem run_static_unpruned_no_check (q : Quantizer)
    (hs : q.static = true) (hc : q.check_acc = false) (hm : q.mask = [])
    (ha : q.orig_acc = 71) :
    isOk (runQ q) = true ∧
    (filesOf (runQ q)).map Prod.fst =
      [q.outDir ++ "/orig_model.pth", q.outDir ++ "/quantized_model.pth",
       q.outDir ++ "/scripted_model.pth"] ∧
    (artifactLogs (traceOf (runQ q))).map Prod.fst = [pyFloatRepr 71, "None", "None"] ∧
    pyFloatRepr 71 = "71.0" := by
  refine ⟨?_, ?_, ?_, by decide⟩ <;>
    simp [runQ, prepareQ, loadMasksQ, quantizeQ, apply_ite, hs, hc, hm, ha,
      filesOf, traceOf, artifactLogs, isOk]

theorem run_static_unpruned_no_check_witness :
    (qBase.static = true ∧ qBase.check_acc = false ∧ qBase.mask = [] ∧
      qBase.orig_acc = 71) ∧
    isOk (runQ qBase) = true ∧
    (filesOf (runQ qBase)).map Prod.fst =
      [qBase.outDir ++ "/orig_model.pth", qBase.outDir ++ "/quantized_model.pth",
       qBase.outDir ++ "/scripted_model.pth"] ∧
    (artifactLogs (traceOf (runQ qBase))).map Prod.fst = [pyFloatRepr 71, "None", "None"] ∧
    pyFloatRepr 71 = "71.0" := by
  have h := run_static_unpruned_no_check qBase rfl rfl rfl rfl
  exact ⟨⟨rfl, rfl, rfl, rfl⟩, h⟩

/-- C8: for every artifact the run persists, the logged size is the byte
length of that artifact file divided by one million rendered to six decimal
places, inside a log line of the artifact form: the logged byte counts
coincide with the persisted files in order, the rendered line is exactly
the artifact line, and the six-decimal rendering is the exact value of
bytes over one million. -/
theorem run_logs_sizes_exactly (q : Quantizer) :
    (artifactLogs (traceOf (runQ q))).map Prod.snd =
      (filesOf (runQ q)).map (fun pa => artifactBytes pa.2) ∧
    (∀ a n, renderArtifactLine a n = "Acc: " ++ a ++ " %\tSize: " ++ fmt6 n ++ " MB") ∧
    (∀ n : Nat, fmt6 n = Nat.repr (n / 1000000) ++ "." ++ pad6 (n % 1000000) ∧
      ((n / 1000000 : ℕ) : ℚ) + ((n % 1000000 : ℕ) : ℚ) / 1000000 = (n : ℚ) / 1000000) := by
  refine ⟨?_, fun a n => rfl, fun n => ⟨rfl, ?_⟩⟩
  · rcases hs : q.static <;> rcases hc : q.check_acc <;>
      rcases hm : q.mask with _ | ⟨a, l⟩ <;>
        simp [runQ, prepareQ, loadMasksQ, quantizeQ, apply_ite, hs, hc, hm,
          artifactLogs, traceOf, filesOf]
  · have h : (n / 1000000) * 1000000 + n % 1000000 = n := by omega
    field_simp
    exact_mod_cast h

theorem run_logs_sizes_exactly_witness :
    (artifactLogs (traceOf (runQ qBase))).map Prod.snd =
      (filesOf (runQ qBase)).map (fun pa => artifactBytes pa.2) :=
  (run_logs_sizes_exactly qBase).1
